import Mathlib

/-!
Verification development for the image-receiver server
(src/unnamed/part_000).  The TypeScript source is shallowly embedded:
pure fragments become Lean functions, the FTP connection pool becomes an
explicit step function on its live count, and the event-driven FTP
session is parameterised by the outcome of the race between its
callbacks (ready/push, error, timeout).  File-system and network effects
are recorded in an effect structure (directories ensured, files written,
forwards attempted) returned next to the HTTP response.
-/

namespace ImageReceiver

/-! ### String helpers (kernel-friendly, built on the character list) -/

/-- Prefix test on strings, via the underlying character lists. -/
def strStartsWith (s pre : String) : Bool :=
  pre.data.isPrefixOf s.data

/-- Suffix test on strings, via the underlying character lists. -/
def strEndsWith (s suf : String) : Bool :=
  suf.data.isSuffixOf s.data

/-- Drop the first `n` characters of a string. -/
def strDrop (s : String) (n : Nat) : String :=
  String.mk (s.data.drop n)

/-- Keep the last `n` characters of a string. -/
def strTakeRight (s : String) (n : Nat) : String :=
  String.mk (s.data.drop (s.data.length - n))

/-- Drop the last `n` characters of a string. -/
def strDropRight (s : String) (n : Nat) : String :=
  String.mk (s.data.take (s.data.length - n))

/-- Longest prefix of a string whose characters satisfy `p`. -/
def strTakeWhile (s : String) (p : Char → Bool) : String :=
  String.mk (s.data.takeWhile p)

/-- Character count of a string. -/
def strLen (s : String) : Nat :=
  s.data.length

/-- Node `path.join(a, b)` on already-clean segments. -/
def pathJoin (a b : String) : String :=
  a ++ "/" ++ b

/-! ### JavaScript truthiness on optional fields

The source tests fields with bare truthiness (`if (x)`, `x || d`), under
which the empty string and the number `0` count as absent. -/

/-- A JS-truthy optional string: `""` collapses to `none`. -/
def jsStr (o : Option String) : Option String :=
  match o with
  | none => none
  | some s => if s = "" then none else some s

/-- JS `o || d` on an optional string (`""` is falsy). -/
def jsOrStr (o : Option String) (d : String) : String :=
  match jsStr o with
  | none => d
  | some s => s

/-- A JS-truthy optional number: `0` collapses to `none`. -/
def jsInt (o : Option Int) : Option Int :=
  match o with
  | none => none
  | some n => if n = 0 then none else some n

/-- JS `o || d` on an optional number (`0` is falsy). -/
def jsOrInt (o : Option Int) (d : Int) : Int :=
  match jsInt o with
  | none => d
  | some n => n

/-! ### Configuration snapshot

The fields of `configs` that the upload pipeline reads (part_000 lines
49-62).  Numeric config values are JS numbers read with `Number(...)`,
so they are modelled as integers (they may be negative). -/

structure Config where
  MAX_FILE_SIZE_MB : Option Int
  FTP_HOST : Option String
  FTP_PORT : Option Int
  FTP_USERNAME : Option String
  FTP_PASSWORD : Option String
  FTP_REMOTE_PATH : Option String
  FTP_SECURE : Bool
  FTP_DIRECTORY : Option String
deriving DecidableEq, Repr

/-- `MAX_FILE_SIZE_MB` hard-coded fallback (part_000 line 35). -/
def MAX_FILE_SIZE_MB : Int := 50

/-- `FTP_POOL_SIZE` (part_000 line 39). -/
def FTP_POOL_SIZE : Int := 5

/-! ### Size validator (part_000 lines 661-670) -/

structure SizeValidation where
  valid : Bool
  message : Option String
deriving DecidableEq, Repr

/-- `(configs.MAX_FILE_SIZE_MB || MAX_FILE_SIZE_MB) * 1024 * 1024`. -/
def maxFileSizeBytes (cfg : Config) : Int :=
  jsOrInt cfg.MAX_FILE_SIZE_MB MAX_FILE_SIZE_MB * 1024 * 1024

/-- `validateFileSize(sizeInBytes)`: invalid exactly when the size
strictly exceeds the configured threshold. -/
def validateFileSize (cfg : Config) (sizeInBytes : Nat) : SizeValidation :=
  if maxFileSizeBytes cfg < (sizeInBytes : Int) then
    { valid := false
      message := some ("File size exceeds maximum allowed size of "
        ++ toString (jsOrInt cfg.MAX_FILE_SIZE_MB MAX_FILE_SIZE_MB) ++ "MB") }
  else
    { valid := true, message := none }

/-! ### Base64 decoding

Models Node `Buffer.from(data, "base64")`: a forgiving decoder that
accepts the standard and URL-safe alphabets, ignores every other
character (whitespace, padding `=`, garbage), and discards trailing
bits that do not fill a byte. -/

/-- Value of one base64 digit, `none` for characters the decoder skips. -/
def base64DigitVal (c : Char) : Option Nat :=
  if 65 ≤ c.toNat ∧ c.toNat ≤ 90 then some (c.toNat - 65)
  else if 97 ≤ c.toNat ∧ c.toNat ≤ 122 then some (c.toNat - 97 + 26)
  else if 48 ≤ c.toNat ∧ c.toNat ≤ 57 then some (c.toNat - 48 + 52)
  else if c = '+' ∨ c = '-' then some 62
  else if c = '/' ∨ c = '_' then some 63
  else none

/-- One decoding step: state is (bytes so far, pending bits value,
pending bit count). -/
def base64Step (st : List Nat × Nat × Nat) (c : Char) : List Nat × Nat × Nat :=
  match base64DigitVal c with
  | none => st
  | some v =>
    let acc := st.2.1 * 64 + v
    let nbits := st.2.2 + 6
    if 8 ≤ nbits then
      (st.1 ++ [acc / 2 ^ (nbits - 8)], acc % 2 ^ (nbits - 8), nbits - 8)
    else
      (st.1, acc, nbits)

/-- `Buffer.from(s, "base64")` as a byte list. -/
def bufferFromBase64 (s : String) : List Nat :=
  (s.data.foldl base64Step ([], 0, 0)).1

/-! ### The inline-upload pattern
`/^data:image\x2f([A-Za-z-+\x2f]+);base64,(.+)$/` (part_000 line 446).

The character class holds the letters, `-`, `+` and `/`; since `;` is
not in the class, the backtracking group always matches the maximal run
of class characters.  `.` does not match a line terminator and `$`
anchors at the very end, so the payload is a non-empty run of
non-terminator characters. -/

/-- Membership in the subtype character class `[A-Za-z-+\x2f]`. -/
def isSubtypeChar (c : Char) : Bool :=
  (65 ≤ c.toNat ∧ c.toNat ≤ 90) ∨ (97 ≤ c.toNat ∧ c.toNat ≤ 122)
    ∨ c = '-' ∨ c = '+' ∨ c = '/'

/-- JS `.` (no dotAll flag) rejects the four line terminators. -/
def isLineTerminator (c : Char) : Bool :=
  c = '\n' ∨ c.toNat = 13 ∨ c.toNat = 8232 ∨ c.toNat = 8233

/-- `base64field.match(regex)`: on success returns the two capture
groups (mime subtype, base64 payload). -/
def matchDataImage (s : String) : Option (String × String) :=
  if strStartsWith s "data:image/" then
    let rest := strDrop s 11
    let sub := strTakeWhile rest isSubtypeChar
    if sub ≠ "" ∧ strStartsWith (strDrop rest (strLen sub)) ";base64," then
      let payload := strDrop rest (strLen sub + 8)
      if payload ≠ "" ∧ payload.data.all (fun c => ¬ isLineTerminator c) then
        some (sub, payload)
      else none
    else none
  else none

/-! ### FTP connection pool (part_000 lines 522-562)

The pool never reuses handles: its only persistent state is
`activeConnections`, the live count of lent handles.  `getConnection`
increments it when it is below `FTP_POOL_SIZE` and otherwise leaves the
caller polling at a fixed 100 ms interval; `releaseConnection`
decrements it (and tears the session down, swallowing errors).  The
count is a JS number, so it is modelled as `Int`.  The pool is driven
by the events below; the polling wait appears as `acquireWait` (the
saturated fast path) followed by `pollRetry`/`pollSuccess` ticks. -/

inductive PoolEvent
  /-- `getConnection` fast path: takes a slot immediately. -/
  | acquireNow
  /-- `getConnection` at capacity: the caller starts polling; no state change. -/
  | acquireWait
  /-- A 100 ms poll tick that finds a free slot and takes it. -/
  | pollSuccess
  /-- A 100 ms poll tick that still finds the pool saturated. -/
  | pollRetry
  /-- `releaseConnection`: unconditionally decrements the live count. -/
  | release
deriving DecidableEq, Repr

/-- One pool transition: `none` means the event is not enabled at this
count (a slot-taking event needs `count < FTP_POOL_SIZE`; a waiting
event happens only at capacity). -/
def poolStep (c : Int) : PoolEvent → Option Int
  | .acquireNow => if c < FTP_POOL_SIZE then some (c + 1) else none
  | .acquireWait => if c < FTP_POOL_SIZE then none else some c
  | .pollSuccess => if c < FTP_POOL_SIZE then some (c + 1) else none
  | .pollRetry => if c < FTP_POOL_SIZE then none else some c
  | .release => some (c - 1)

/-- Run a sequence of pool events from a starting count. -/
def poolRun (c : Int) : List PoolEvent → Option Int
  | [] => some c
  | e :: es =>
    match poolStep c e with
    | none => none
    | some c2 => poolRun c2 es

/-! ### Forwarder `uploadToFtp` (part_000 lines 567-657)

The session is event-driven; the outcome of the race between the
timeout timer, the `error` event, and the `ready`/`put` callback is an
input to the embedding (`SessionOutcome`).  The function records, next
to the `{success, message, url?}` result it resolves with, how many
times the pool slot was acquired and released. -/

/-- Which of the racing session callbacks fires (first). -/
inductive SessionOutcome
  /-- The 30 s timeout fires before the session completes. -/
  | timeout
  /-- The session emits `error` (e.g. connection refused). -/
  | connError (errMessage : String)
  /-- The session becomes ready and `put` runs; `some e` is a push
  error message, `none` a successful push. -/
  | ready (pushError : Option String)
  /-- The promise body throws synchronously (caught by its `catch`). -/
  | thrown (errMessage : String)
deriving DecidableEq, Repr

structure FtpResult where
  success : Bool
  message : String
  url : Option String
deriving DecidableEq, Repr

/-- Result of one `uploadToFtp` call plus its pool and session effects
(`putCalls` records the `client.put(buffer, remoteFilePath)` pushes). -/
structure FtpCall where
  result : FtpResult
  acquired : Nat
  released : Nat
  putCalls : List (List Nat × String)
deriving DecidableEq, Repr

/-- The guard at part_000 line 574: all four destination parameters
must be JS-truthy. -/
def ftpConfigComplete (cfg : Config) : Bool :=
  (jsStr cfg.FTP_HOST).isSome && (jsInt cfg.FTP_PORT).isSome
    && (jsStr cfg.FTP_USERNAME).isSome && (jsStr cfg.FTP_PASSWORD).isSome

/-- Remote file path and public URL (part_000 lines 583-594). -/
def ftpRemotePaths (cfg : Config) (filename : String) : String × String :=
  let remotePath := jsOrStr cfg.FTP_REMOTE_PATH "/"
  let host := jsOrStr cfg.FTP_HOST ""
  match jsStr cfg.FTP_DIRECTORY with
  | some dir =>
    let remoteDirectory :=
      if strEndsWith remotePath "/" then remotePath ++ dir
      else remotePath ++ "/" ++ dir
    (remoteDirectory ++ "/" ++ filename,
      "https://" ++ host ++ "/" ++ dir ++ "/" ++ filename)
  | none =>
    (if strEndsWith remotePath "/" then remotePath ++ filename
      else remotePath ++ "/" ++ filename,
      "https://" ++ host ++ "/" ++ filename)

/-- A failing resolution that never reached `put`: one acquire, one
release, no URL, no push. -/
def ftpFail (message : String) : FtpCall :=
  { result := { success := false, message := message, url := none }
    acquired := 1
    released := 1
    putCalls := [] }

/-- `uploadToFtp(buffer, filename)`.  The handle is acquired before the
returned promise runs; every resolution path releases it exactly once. -/
def uploadToFtp (cfg : Config) (outcome : SessionOutcome)
    (buffer : List Nat) (filename : String) : FtpCall :=
  if ftpConfigComplete cfg = false then
    ftpFail "Missing FTP configuration in config file"
  else
    let paths := ftpRemotePaths cfg filename
    match outcome with
    | .timeout => ftpFail "FTP connection timeout"
    | .connError e => ftpFail ("FTP connection failed: " ++ e)
    | .ready (some e) =>
      { result :=
          { success := false, message := "FTP upload failed: " ++ e, url := none }
        acquired := 1
        released := 1
        putCalls := [(buffer, paths.1)] }
    | .ready none =>
      { result :=
          { success := true
            message := "Image uploaded to FTP successfully"
            url := some paths.2 }
        acquired := 1
        released := 1
        putCalls := [(buffer, paths.1)] }
    | .thrown e => ftpFail ("FTP upload failed: " ++ e)

/-! ### HTTP responses and recorded effects

`createSuccessResponse` / `createErrorResponse` (part_000 lines
143-156) produce `{success, message, ...}` JSON bodies; the optional
fields the three upload handlers add are inlined here.  The effect
record tracks the file-system and forwarding side effects each handler
performs: `dirsEnsured` lists the target directories the handler made
sure exist (the `access`-else-`mkdir recursive` blocks), `writes` the
`fsPromises.writeFile` calls, and `forwards` the `uploadToFtp`
invocations with their buffer and filename. -/

structure FileInfo where
  name : String
  size : Nat
  type : String
deriving DecidableEq, Repr

structure ApiResponse where
  success : Bool
  status : Nat
  message : String
  local_path : Option String
  public_url : Option String
  file_info : Option FileInfo
deriving DecidableEq, Repr

/-- Error body `{success: false, message}` with the given status. -/
def errorResponse (message : String) (status : Nat) : ApiResponse :=
  { success := false, status := status, message := message
    local_path := none, public_url := none, file_info := none }

structure UploadEffects where
  response : ApiResponse
  dirsEnsured : List String
  writes : List (String × List Nat)
  forwards : List (List Nat × String)
deriving DecidableEq, Repr

/-- An early rejection: an error response and no side effects. -/
def rejected (message : String) (status : Nat) : UploadEffects :=
  { response := errorResponse message status
    dirsEnsured := [], writes := [], forwards := [] }

/-! ### Request shapes (after URL-decode / JSON / form parsing) -/

/-- Body of `POST /upload_image` (part_000 line 439).  The flags are
read with bare truthiness, so they are booleans here. -/
structure InlineRequest where
  base64 : Option String
  prefixName : Option String
  folder : Option String
  ftp : Bool
  print : Bool
deriving DecidableEq, Repr

/-- The `file` form field of `POST /upload_file`: name, bytes and
declared mime type (`file.size` is the byte count). -/
structure MultipartFile where
  name : String
  bytes : List Nat
  type : String
deriving DecidableEq, Repr

/-- Form of `POST /upload_file` (part_000 lines 743-748); `print` and
`ftp` are the results of the `=== \x27true\x27` comparisons. -/
structure MultipartForm where
  file : Option MultipartFile
  folder : Option String
  print : Bool
  ftp : Bool
  prefixName : Option String
deriving DecidableEq, Repr

/-- Body of `POST /upload_image_ftp` (part_000 lines 686-689). -/
structure FtpOnlyRequest where
  base64 : Option String
  prefixName : Option String
deriving DecidableEq, Repr

/-! ### Target path resolution (part_000 lines 454-469 and 766-779)

Both upload handlers run the same block: print jobs go to the print
root ignoring any folder; a JS-truthy folder is namespaced as
`<save root>/<folder>_<clientId>` and that directory is ensured to
exist (`mkdir` with `recursive: true` when `access` fails); otherwise
the save root is used.  The second component lists the directories
ensured. -/

def resolveTarget (isPrint : Bool) (folder : Option String)
    (clientId savePath printPath : String) : String × List String :=
  if isPrint then (printPath, [])
  else
    match jsStr folder with
    | some f =>
      let t := pathJoin savePath (f ++ "_" ++ clientId)
      (t, [t])
    | none => (savePath, [])

/-! ### `POST /upload_image` handler (part_000 lines 433-520)

Inputs beyond the parsed body: the client identity hash
(`getClientIdentifier`), the formatted timestamp string, the two root
directories, the config snapshot, and the session outcome used if a
forward happens. -/

def uploadImage (req : InlineRequest) (clientId dateString : String)
    (savePath printPath : String) (cfg : Config)
    (outcome : SessionOutcome) : UploadEffects :=
  match jsStr req.base64 with
  | none => rejected "Missing \x27base64\x27 field" 400
  | some b64 =>
    match matchDataImage b64 with
    | none => rejected "Invalid base64 format" 400
    | some (ty, data) =>
      let target := resolveTarget req.print req.folder clientId savePath printPath
      let buffer := bufferFromBase64 data
      let sizeValidation := validateFileSize cfg buffer.length
      if sizeValidation.valid = false then
        { response := errorResponse (jsOrStr sizeValidation.message "") 400
          dirsEnsured := target.2, writes := [], forwards := [] }
      else
        let filename := jsOrStr req.prefixName "image" ++ "-" ++ dateString ++ "." ++ ty
        let filePath := pathJoin target.1 filename
        if req.ftp then
          let ftpResult := uploadToFtp cfg outcome buffer filename
          if ftpResult.result.success then
            { response :=
                { success := true, status := 200
                  message := "Image uploaded successfully to both local and FTP"
                  local_path := none
                  public_url := ftpResult.result.url
                  file_info := none }
              dirsEnsured := target.2
              writes := [(filePath, buffer)]
              forwards := [(buffer, filename)] }
          else
            { response :=
                { success := true, status := 200
                  message := "Image uploaded locally but FTP upload failed: "
                    ++ ftpResult.result.message
                  local_path := some filePath
                  public_url := none
                  file_info := none }
              dirsEnsured := target.2
              writes := [(filePath, buffer)]
              forwards := [(buffer, filename)] }
        else
          { response :=
              { success := true, status := 200
                message := "Image uploaded successfully"
                local_path := some filePath
                public_url := none
                file_info := none }
            dirsEnsured := target.2
            writes := [(filePath, buffer)]
            forwards := [] }

/-! ### `POST /upload_image_ftp` handler (part_000 lines 679-736) -/

def uploadImageToFtp (req : FtpOnlyRequest) (dateString : String)
    (cfg : Config) (outcome : SessionOutcome) : UploadEffects :=
  match jsStr req.base64 with
  | none => rejected "Missing \x27base64\x27 field" 400
  | some b64 =>
    match matchDataImage b64 with
    | none => rejected "Invalid base64 format" 400
    | some (ty, data) =>
      let buffer := bufferFromBase64 data
      let sizeValidation := validateFileSize cfg buffer.length
      if sizeValidation.valid = false then
        rejected (jsOrStr sizeValidation.message "") 400
      else
        let filename := jsOrStr req.prefixName "image" ++ "-" ++ dateString ++ "." ++ ty
        let ftpResult := uploadToFtp cfg outcome buffer filename
        if ftpResult.result.success then
          { response :=
              { success := true, status := 200
                message := ftpResult.result.message
                local_path := none
                public_url := ftpResult.result.url
                file_info := none }
            dirsEnsured := [], writes := []
            forwards := [(buffer, filename)] }
        else
          { response := errorResponse ftpResult.result.message 500
            dirsEnsured := [], writes := []
            forwards := [(buffer, filename)] }

/-! ### `POST /upload_file` handler (part_000 lines 739-848)

Node path helpers used by the filename generation. -/

/-- Last path segment (`path.basename(p)` without suffix stripping). -/
def lastSegment (p : String) : String :=
  String.mk (p.data.foldl (fun acc c => if c = '/' then [] else acc ++ [c]) [])

/-- Index of the last `.` of a character list, if any. -/
def lastDotSplit (cs : List Char) : Option Nat :=
  (cs.foldl (fun acc c => if c = '.' then some 0 else acc.map (· + 1)) none).map
    (fun fromEnd => cs.length - 1 - fromEnd)

/-- Node `path.extname(p)`: the suffix of the last segment from its
last `.`, empty when there is no dot, when the dot is leading, or when
everything before the dot is dots (`".."` has no extension). -/
def extname (p : String) : String :=
  let base := lastSegment p
  match lastDotSplit base.data with
  | none => ""
  | some i =>
    if i = 0 ∨ (base.data.take i).all (· = '.') then ""
    else String.mk (base.data.drop i)

/-- Node `path.basename(p, ext)`: the last segment, with the suffix
`ext` stripped when it matches and is not the whole segment. -/
def basenameExt (p ext : String) : String :=
  let base := lastSegment p
  if ext ≠ "" ∧ base ≠ ext ∧ strEndsWith base ext then
    strDropRight base (strLen ext)
  else base

/-- `POST /upload_file`.  `verifyOk` is the outcome of the
`fsPromises.access` re-check that runs right after the write. -/
def uploadFile (form : MultipartForm) (clientId dateString : String)
    (savePath printPath : String) (cfg : Config)
    (outcome : SessionOutcome) (verifyOk : Bool) : UploadEffects :=
  match form.file with
  | none => rejected "No file provided" 400
  | some file =>
    let sizeValidation := validateFileSize cfg file.bytes.length
    if sizeValidation.valid = false then
      rejected (jsOrStr sizeValidation.message "") 400
    else
      let target := resolveTarget form.print form.folder clientId savePath printPath
      let fileExtension := extname file.name
      let baseName := jsOrStr form.prefixName (jsOrStr (some (basenameExt file.name fileExtension)) "file")
      let filename := baseName ++ "_" ++ clientId ++ "_" ++ dateString ++ fileExtension
      let filePath := pathJoin target.1 filename
      let info : FileInfo := { name := file.name, size := file.bytes.length, type := file.type }
      if verifyOk = false then
        { response := errorResponse "File save failed" 500
          dirsEnsured := target.2
          writes := [(filePath, file.bytes)]
          forwards := [] }
      else if form.ftp then
        let ftpResult := uploadToFtp cfg outcome file.bytes filename
        if ftpResult.result.success then
          { response :=
              { success := true, status := 200
                message := "File uploaded successfully to both local and FTP"
                local_path := some filePath
                public_url := ftpResult.result.url
                file_info := some info }
            dirsEnsured := target.2
            writes := [(filePath, file.bytes)]
            forwards := [(file.bytes, filename)] }
        else
          { response :=
              { success := true, status := 200
                message := "File uploaded locally but FTP upload failed: "
                  ++ ftpResult.result.message
                local_path := some filePath
                public_url := none
                file_info := some info }
            dirsEnsured := target.2
            writes := [(filePath, file.bytes)]
            forwards := [(file.bytes, filename)] }
      else
        { response :=
            { success := true, status := 200
              message := "File uploaded successfully"
              local_path := some filePath
              public_url := none
              file_info := some info }
          dirsEnsured := target.2
          writes := [(filePath, file.bytes)]
          forwards := [] }

/-! ### Concrete fixtures used by witnesses and counterexamples -/

/-- A config with no FTP destination and default size limit. -/
def cfgEmpty : Config :=
  ⟨none, none, none, none, none, none, false, none⟩

/-- A config with a complete FTP destination. -/
def cfgFull : Config :=
  ⟨none, some "ftp.example.com", some 21, some "user", some "pass",
    some "/", false, none⟩

/-- A config whose `MAX_FILE_SIZE_MB` is the (JS-representable) `-1`,
giving a negative byte threshold that every request exceeds. -/
def cfgTiny : Config :=
  ⟨some (-1), none, none, none, none, none, false, none⟩

def reqPlain : InlineRequest :=
  ⟨some "data:image/png;base64,aGk", some "test", none, false, false⟩

def reqFtpFlag : InlineRequest :=
  ⟨some "data:image/png;base64,aGk", none, none, true, false⟩

def reqEmptyBuf : InlineRequest :=
  ⟨some "data:image/png;base64,a", none, none, false, false⟩

def reqFolder : InlineRequest :=
  ⟨some "data:image/png;base64,aGk", none, some "album", false, false⟩

def formFtpFlag : MultipartForm :=
  ⟨some ⟨"photo.png", [1, 2, 3], "image/png"⟩, none, false, true, none⟩

def reqFtpOnly : FtpOnlyRequest :=
  ⟨some "data:image/png;base64,aGk", none⟩

/-! ### Helper lemmas -/

/-- One enabled pool step cannot push the live count above capacity,
provided it starts at or below capacity. -/
theorem poolStep_le_cap (c c2 : Int) (e : PoolEvent)
    (hc : c ≤ FTP_POOL_SIZE) (h : poolStep c e = some c2) :
    c2 ≤ FTP_POOL_SIZE := by
  simp only [FTP_POOL_SIZE] at hc ⊢
  cases e with
  | acquireNow =>
    simp only [poolStep, FTP_POOL_SIZE] at h
    split at h
    · injection h with h; omega
    · cases h
  | acquireWait =>
    simp only [poolStep, FTP_POOL_SIZE] at h
    split at h
    · cases h
    · injection h with h; omega
  | pollSuccess =>
    simp only [poolStep, FTP_POOL_SIZE] at h
    split at h
    · injection h with h; omega
    · cases h
  | pollRetry =>
    simp only [poolStep, FTP_POOL_SIZE] at h
    split at h
    · cases h
    · injection h with h; omega
  | release =>
    simp only [poolStep] at h
    injection h with h
    omega

/-- The pool invariant is preserved along any enabled event sequence. -/
theorem poolRun_le_cap (tr : List PoolEvent) : ∀ (c c2 : Int),
    c ≤ FTP_POOL_SIZE → poolRun c tr = some c2 → c2 ≤ FTP_POOL_SIZE := by
  induction tr with
  | nil =>
    intro c c2 hc h
    simp only [poolRun, Option.some.injEq] at h
    omega
  | cons e es ih =>
    intro c c2 hc h
    simp only [poolRun] at h
    cases he : poolStep c e with
    | none => rw [he] at h; cases h
    | some c1 =>
      rw [he] at h
      exact ih c1 c2 (poolStep_le_cap c c1 e hc he) h

/-- `uploadToFtp` succeeds exactly when the destination configuration
is complete and the session becomes ready and pushes without error. -/
theorem uploadToFtp_success_iff (cfg : Config) (outcome : SessionOutcome)
    (buffer : List Nat) (filename : String) :
    (uploadToFtp cfg outcome buffer filename).result.success = true ↔
      ftpConfigComplete cfg = true ∧ outcome = SessionOutcome.ready none := by
  unfold uploadToFtp
  cases hcfg : ftpConfigComplete cfg <;> cases outcome <;> simp_all [ftpFail]
  case ready o => cases o <;> simp_all

/-- A successful regex match has non-empty subtype and payload groups. -/
theorem matchDataImage_groups_ne {s ty payload : String}
    (h : matchDataImage s = some (ty, payload)) :
    ty ≠ "" ∧ payload ≠ "" := by
  unfold matchDataImage at h
  split at h
  · simp only [] at h
    split at h
    · split at h
      · rename_i hsub hpay
        injection h with h
        injection h with h1 h2
        subst h1; subst h2
        exact ⟨hsub.1, hpay.1⟩
      · cases h
    · cases h
  · cases h

/-- A string ends with any suffix appended to it. -/
theorem strEndsWith_append (a b : String) : strEndsWith (a ++ b) b = true := by
  simp only [strEndsWith, String.data_append]
  have : b.data <:+ a.data ++ b.data := List.suffix_append a.data b.data
  exact List.isSuffixOf_iff_suffix.mpr this

/-- Appending to a non-empty string keeps it non-empty. -/
theorem append_ne_empty_left (a b : String) (ha : a ≠ "") : a ++ b ≠ "" := by
  intro hab
  apply ha
  apply String.ext
  have hd : a.data ++ b.data = [] := by
    have h2 := congrArg String.data hab
    simpa [String.data_append] using h2
  show a.data = "".data
  rw [(List.append_eq_nil.mp hd).1]

/-- Every `uploadToFtp` call acquires its pool handle exactly once. -/
theorem uploadToFtp_acquired_one (cfg : Config) (outcome : SessionOutcome)
    (buffer : List Nat) (filename : String) :
    (uploadToFtp cfg outcome buffer filename).acquired = 1 := by
  unfold uploadToFtp
  split
  · rfl
  · cases outcome with
    | timeout => rfl
    | connError e => rfl
    | ready o => cases o <;> rfl
    | thrown e => rfl

/-- Every `uploadToFtp` resolution path releases the handle exactly once. -/
theorem uploadToFtp_released_one (cfg : Config) (outcome : SessionOutcome)
    (buffer : List Nat) (filename : String) :
    (uploadToFtp cfg outcome buffer filename).released = 1 := by
  unfold uploadToFtp
  split
  · rfl
  · cases outcome with
    | timeout => rfl
    | connError e => rfl
    | ready o => cases o <;> rfl
    | thrown e => rfl

/-- Every `uploadToFtp` resolution carries a non-empty message. -/
theorem uploadToFtp_message_ne (cfg : Config) (outcome : SessionOutcome)
    (buffer : List Nat) (filename : String) :
    (uploadToFtp cfg outcome buffer filename).result.message ≠ "" := by
  unfold uploadToFtp
  split
  · simp only [ftpFail]
    decide
  · cases outcome with
    | timeout => simp only [ftpFail]; decide
    | connError e =>
      simp only [ftpFail]
      exact append_ne_empty_left "FTP connection failed: " e (by decide)
    | ready o =>
      cases o with
      | none => simp only []; decide
      | some e =>
        simp only []
        exact append_ne_empty_left "FTP upload failed: " e (by decide)
    | thrown e =>
      simp only [ftpFail]
      exact append_ne_empty_left "FTP upload failed: " e (by decide)

/-! ### Claim theorems -/

/-- C1: the FTP connection pool never has more than `FTP_POOL_SIZE = 5`
handles lent at once: along every enabled event sequence from the
initial count 0, the live count stays at most 5; `getConnection` hands
out a fresh handle (incrementing the count) exactly when the count is
below 5; a caller that finds the pool at capacity waits — the saturated
fast path and every poll tick at capacity leave the count unchanged and
yield no handle — and once a `releaseConnection` drops the count from 5
to 4, the next poll tick acquires, so a 6th concurrent forward waits
until a prior one releases.  Poll ticks model the fixed 100 ms
re-check interval. -/
theorem pool_capacity_invariant :
    (∀ (tr : List PoolEvent) (c : Int), poolRun 0 tr = some c → c ≤ FTP_POOL_SIZE)
    ∧ (∀ c : Int, c < FTP_POOL_SIZE → poolStep c PoolEvent.acquireNow = some (c + 1))
    ∧ (∀ c : Int, FTP_POOL_SIZE ≤ c →
        poolStep c PoolEvent.acquireNow = none
        ∧ poolStep c PoolEvent.acquireWait = some c
        ∧ poolStep c PoolEvent.pollRetry = some c)
    ∧ poolStep FTP_POOL_SIZE PoolEvent.release = some (FTP_POOL_SIZE - 1)
    ∧ poolStep (FTP_POOL_SIZE - 1) PoolEvent.pollSuccess = some FTP_POOL_SIZE := by
  refine ⟨fun tr c h => poolRun_le_cap tr 0 c (by decide) h, ?_, ?_, by decide, by decide⟩
  · intro c hc
    simp [poolStep, hc]
  · intro c hc
    have hnot : ¬ c < FTP_POOL_SIZE := by omega
    simp [poolStep, hnot]

/-- Witness for C1: five immediate acquires fill the pool to 5 (which
is within capacity); a 6th request only waits at capacity, and after a
release the next poll tick admits it, reaching 5 again. -/
theorem pool_capacity_invariant_witness :
    poolRun 0 [PoolEvent.acquireNow, PoolEvent.acquireNow, PoolEvent.acquireNow,
        PoolEvent.acquireNow, PoolEvent.acquireNow, PoolEvent.acquireWait,
        PoolEvent.release, PoolEvent.pollSuccess] = some 5
    ∧ (5 : Int) ≤ FTP_POOL_SIZE
    ∧ poolStep 4 PoolEvent.acquireNow = some 5 :=
  ⟨by decide,
   pool_capacity_invariant.1
     [PoolEvent.acquireNow, PoolEvent.acquireNow, PoolEvent.acquireNow,
       PoolEvent.acquireNow, PoolEvent.acquireNow, PoolEvent.acquireWait,
       PoolEvent.release, PoolEvent.pollSuccess] 5 (by decide),
   pool_capacity_invariant.2.1 4 (by decide)⟩

/-- C6: for every input and configuration, `uploadToFtp` resolves to a
total `{success, message, url?}` result (the Lean function is total, so
nothing escapes the boundary); exactly one resolution path executes —
the pool handle is acquired once and released exactly once per call —
and every failure mode carries its descriptive message: missing
destination configuration, timeout, connection error, push error, and
a synchronous throw each produce the message shown below, while the
success path carries the computed public URL.  The race between the
timeout timer and the session callbacks is modelled by the
`SessionOutcome` input naming the callback that wins. -/
theorem forwarder_total_resolution (cfg : Config) (outcome : SessionOutcome)
    (buffer : List Nat) (filename : String) :
    (uploadToFtp cfg outcome buffer filename).acquired = 1
    ∧ (uploadToFtp cfg outcome buffer filename).released = 1
    ∧ (uploadToFtp cfg outcome buffer filename).result.message ≠ ""
    ∧ (ftpConfigComplete cfg = false →
        (uploadToFtp cfg outcome buffer filename).result.message
          = "Missing FTP configuration in config file")
    ∧ (ftpConfigComplete cfg = true → outcome = SessionOutcome.timeout →
        (uploadToFtp cfg outcome buffer filename).result.message
          = "FTP connection timeout")
    ∧ (∀ e, ftpConfigComplete cfg = true → outcome = SessionOutcome.connError e →
        (uploadToFtp cfg outcome buffer filename).result.message
          = "FTP connection failed: " ++ e)
    ∧ (∀ e, ftpConfigComplete cfg = true → outcome = SessionOutcome.ready (some e) →
        (uploadToFtp cfg outcome buffer filename).result.message
          = "FTP upload failed: " ++ e)
    ∧ ((uploadToFtp cfg outcome buffer filename).result.success = true →
        (uploadToFtp cfg outcome buffer filename).result.url
          = some (ftpRemotePaths cfg filename).2) := by
  refine ⟨uploadToFtp_acquired_one cfg outcome buffer filename,
    uploadToFtp_released_one cfg outcome buffer filename,
    uploadToFtp_message_ne cfg outcome buffer filename, ?_, ?_, ?_, ?_, ?_⟩
  · intro h
    simp [uploadToFtp, h, ftpFail]
  · intro hcfg hout
    subst hout
    simp [uploadToFtp, hcfg, ftpFail]
  · intro e hcfg hout
    subst hout
    simp [uploadToFtp, hcfg, ftpFail]
  · intro e hcfg hout
    subst hout
    simp [uploadToFtp, hcfg, ftpFail]
  · intro hs
    rw [uploadToFtp_success_iff] at hs
    obtain ⟨hcfg, hout⟩ := hs
    subst hout
    simp [uploadToFtp, hcfg]

/-- Witness for C6: with a complete destination configuration, a
timed-out call resolves with the timeout message and a completed push
resolves with the conventional public URL. -/
theorem forwarder_total_resolution_witness :
    ftpConfigComplete cfgFull = true
    ∧ (uploadToFtp cfgFull SessionOutcome.timeout [7] "a.png").result.message
        = "FTP connection timeout"
    ∧ (uploadToFtp cfgFull (SessionOutcome.ready none) [7] "a.png").result.url
        = some "https://ftp.example.com/a.png" :=
  ⟨by decide,
   (forwarder_total_resolution cfgFull SessionOutcome.timeout [7] "a.png").2.2.2.2.1
     (by decide) rfl,
   by
    have h := (forwarder_total_resolution cfgFull (SessionOutcome.ready none)
      [7] "a.png").2.2.2.2.2.2.2 (by decide)
    simpa using h⟩

/-- C7: a forward whose session does not complete within the 30 s
timeout resolves with the timeout failure and releases its pool slot
exactly once, so that with the slot returned (live count `c - 1` after
holding one of at most 5), a subsequent `getConnection` succeeds
immediately. -/
theorem forward_timeout_releases_slot (cfg : Config) (buffer : List Nat)
    (filename : String) (c : Int) (hcfg : ftpConfigComplete cfg = true)
    (hheld : 1 ≤ c) (hcap : c ≤ FTP_POOL_SIZE) :
    (uploadToFtp cfg SessionOutcome.timeout buffer filename).result.success = false
    ∧ (uploadToFtp cfg SessionOutcome.timeout buffer filename).result.message
        = "FTP connection timeout"
    ∧ (uploadToFtp cfg SessionOutcome.timeout buffer filename).released = 1
    ∧ poolStep (c - 1) PoolEvent.acquireNow = some c := by
  refine ⟨?_, ?_, ?_, ?_⟩
  · simp [uploadToFtp, hcfg, ftpFail]
  · simp [uploadToFtp, hcfg, ftpFail]
  · simp [uploadToFtp, hcfg, ftpFail]
  · have hlt : c - 1 < FTP_POOL_SIZE := by
      simp only [FTP_POOL_SIZE] at hcap ⊢; omega
    simp only [poolStep, if_pos hlt]
    congr 1
    omega

/-- Witness for C7: a timed-out forward against a complete
configuration from a saturated pool (count 5) frees the slot and the
next acquire succeeds. -/
theorem forward_timeout_releases_slot_witness :
    ftpConfigComplete cfgFull = true ∧ (1 : Int) ≤ 5 ∧ (5 : Int) ≤ FTP_POOL_SIZE
    ∧ (uploadToFtp cfgFull SessionOutcome.timeout [7] "a.png").result.message
        = "FTP connection timeout"
    ∧ poolStep 4 PoolEvent.acquireNow = some 5 :=
  ⟨by decide, by decide, by decide,
   (forward_timeout_releases_slot cfgFull [7] "a.png" 5 (by decide) (by decide)
     (by decide)).2.1,
   by
    have h := (forward_timeout_releases_slot cfgFull [7] "a.png" 5 (by decide)
      (by decide) (by decide)).2.2.2
    simpa using h⟩

/-- C4: for every inline upload whose base64 field matches
`data:image/<subtype>;base64,<payload>` (and passes size validation so
a file is persisted), the single file written contains exactly the
base64 decoding of the payload — hence its byte length is the decoded
payload length — and the generated filename ends in `.<subtype>`. -/
theorem inline_payload_persistence
    (req : InlineRequest) (clientId dateString savePath printPath : String)
    (cfg : Config) (outcome : SessionOutcome) (s ty payload : String)
    (hb : jsStr req.base64 = some s)
    (hm : matchDataImage s = some (ty, payload))
    (hsz : (validateFileSize cfg (bufferFromBase64 payload).length).valid = true) :
    (uploadImage req clientId dateString savePath printPath cfg outcome).writes
      = [(pathJoin (resolveTarget req.print req.folder clientId savePath printPath).1
            (jsOrStr req.prefixName "image" ++ "-" ++ dateString ++ "." ++ ty),
          bufferFromBase64 payload)]
    ∧ strEndsWith (jsOrStr req.prefixName "image" ++ "-" ++ dateString ++ "." ++ ty)
        ("." ++ ty) = true := by
  constructor
  · simp only [uploadImage, hb, hm]
    simp only [hsz, Bool.true_eq_false, if_false]
    split <;> (try split) <;> rfl
  · rw [String.append_assoc]
    exact strEndsWith_append _ _

/-- Witness for C4: the example inline upload
`data:image/png;base64,aGk` with prefix `test` persists the two bytes
`[104, 105]` under a `.png` filename. -/
theorem inline_payload_persistence_witness :
    (uploadImage reqPlain "cid" "d" "/save" "/print" cfgEmpty
        SessionOutcome.timeout).writes
      = [(pathJoin (resolveTarget reqPlain.print reqPlain.folder "cid" "/save" "/print").1
            (jsOrStr reqPlain.prefixName "image" ++ "-" ++ "d" ++ "." ++ "png"),
          bufferFromBase64 "aGk")]
    ∧ strEndsWith (jsOrStr reqPlain.prefixName "image" ++ "-" ++ "d" ++ "." ++ "png")
        ("." ++ "png") = true :=
  inline_payload_persistence reqPlain "cid" "d" "/save" "/print" cfgEmpty
    SessionOutcome.timeout "data:image/png;base64,aGk" "png" "aGk"
    (by decide) (by decide) (by decide)

/-- C10: an inline upload that supplies a folder (print flag false) and
whose decoded payload exceeds the size threshold is rejected with a
client error and no file written, yet the namespaced directory
`<save root>/<folder>_<clientId>` has been ensured to exist (created if
absent) as a side effect: in `uploadImage` the directory block runs
before `validateFileSize`. -/
theorem folder_created_before_size_check
    (req : InlineRequest) (clientId dateString savePath printPath : String)
    (cfg : Config) (outcome : SessionOutcome) (s ty payload f : String)
    (hp : req.print = false) (hf : jsStr req.folder = some f)
    (hb : jsStr req.base64 = some s)
    (hm : matchDataImage s = some (ty, payload))
    (hsz : maxFileSizeBytes cfg < ((bufferFromBase64 payload).length : Int)) :
    (uploadImage req clientId dateString savePath printPath cfg outcome).response.success = false
    ∧ (uploadImage req clientId dateString savePath printPath cfg outcome).response.status = 400
    ∧ (uploadImage req clientId dateString savePath printPath cfg outcome).writes = []
    ∧ (uploadImage req clientId dateString savePath printPath cfg outcome).dirsEnsured
        = [pathJoin savePath (f ++ "_" ++ clientId)] := by
  have hval : (validateFileSize cfg (bufferFromBase64 payload).length).valid = false := by
    simp [validateFileSize, hsz]
  simp only [uploadImage, hb, hm, hval, if_true]
  simp [resolveTarget, hp, hf, errorResponse]

/-- Witness for C10: with the folder `album` and a configured
`MAX_FILE_SIZE_MB = -1` (negative threshold), the two-byte payload is
rejected with status 400 and no write, but `/save/album_cid` was
ensured. -/
theorem folder_created_before_size_check_witness :
    (uploadImage reqFolder "cid" "d" "/save" "/print" cfgTiny
        SessionOutcome.timeout).response.success = false
    ∧ (uploadImage reqFolder "cid" "d" "/save" "/print" cfgTiny
        SessionOutcome.timeout).response.status = 400
    ∧ (uploadImage reqFolder "cid" "d" "/save" "/print" cfgTiny
        SessionOutcome.timeout).writes = []
    ∧ (uploadImage reqFolder "cid" "d" "/save" "/print" cfgTiny
        SessionOutcome.timeout).dirsEnsured
        = [pathJoin "/save" ("album" ++ "_" ++ "cid")] :=
  folder_created_before_size_check reqFolder "cid" "d" "/save" "/print" cfgTiny
    SessionOutcome.timeout "data:image/png;base64,aGk" "png" "aGk" "album"
    (by decide) (by decide) (by decide) (by decide) (by decide)

/-- C3: for every upload, the print flag forces the print root as
target (any folder is ignored and nothing is newly ensured); otherwise
a JS-truthy folder yields `<save root>/<folder>_<clientId>`, which is
ensured to exist (created with parents if absent) — and only then;
otherwise the save root is used.  The last two conjuncts tie both
handlers to the resolver: whenever a file is persisted, its path lies
directly under the resolved target and the directories the handler
ensured are exactly the resolver's. -/
theorem target_path_resolution :
    (∀ folder clientId savePath printPath,
      resolveTarget true folder clientId savePath printPath = (printPath, []))
    ∧ (∀ (f : String) clientId savePath printPath, f ≠ "" →
      resolveTarget false (some f) clientId savePath printPath
        = (pathJoin savePath (f ++ "_" ++ clientId),
            [pathJoin savePath (f ++ "_" ++ clientId)]))
    ∧ (∀ clientId savePath printPath,
      resolveTarget false none clientId savePath printPath = (savePath, []))
    ∧ (∀ (req : InlineRequest) clientId dateString savePath printPath cfg outcome p b,
      (uploadImage req clientId dateString savePath printPath cfg outcome).writes = [(p, b)] →
      (∃ fn, p = pathJoin
          (resolveTarget req.print req.folder clientId savePath printPath).1 fn)
      ∧ (uploadImage req clientId dateString savePath printPath cfg outcome).dirsEnsured
          = (resolveTarget req.print req.folder clientId savePath printPath).2)
    ∧ (∀ (form : MultipartForm) clientId dateString savePath printPath cfg outcome verifyOk p b,
      (uploadFile form clientId dateString savePath printPath cfg outcome verifyOk).writes = [(p, b)] →
      (∃ fn, p = pathJoin
          (resolveTarget form.print form.folder clientId savePath printPath).1 fn)
      ∧ (uploadFile form clientId dateString savePath printPath cfg outcome verifyOk).dirsEnsured
          = (resolveTarget form.print form.folder clientId savePath printPath).2) := by
  refine ⟨?_, ?_, ?_, ?_, ?_⟩
  · intro folder clientId savePath printPath
    simp [resolveTarget]
  · intro f clientId savePath printPath hf
    simp [resolveTarget, jsStr, hf]
  · intro clientId savePath printPath
    simp [resolveTarget, jsStr]
  · intro req clientId dateString savePath printPath cfg outcome p b h
    cases hb : jsStr req.base64 with
    | none => simp [uploadImage, hb, rejected] at h
    | some b64 =>
      cases hm : matchDataImage b64 with
      | none => simp [uploadImage, hb, hm, rejected] at h
      | some pr =>
        obtain ⟨ty, data⟩ := pr
        simp only [uploadImage, hb, hm] at h ⊢
        split_ifs at h ⊢ with h1 h2 h3 <;>
          first
            | (simp at h; done)
            | (simp only [List.cons.injEq, Prod.mk.injEq, and_true] at h
               exact ⟨⟨_, h.1.symm⟩, rfl⟩)
  · intro form clientId dateString savePath printPath cfg outcome verifyOk p b h
    cases hf : form.file with
    | none => simp [uploadFile, hf, rejected] at h
    | some file =>
      simp only [uploadFile, hf] at h ⊢
      split_ifs at h ⊢ with h1 h2 h3 h4 <;>
        first
          | (simp [rejected] at h; done)
          | (simp only [List.cons.injEq, Prod.mk.injEq, and_true] at h
             exact ⟨⟨_, h.1.symm⟩, rfl⟩)

/-- Witness for C3: print jobs resolve to the print root even with a
folder supplied; the folder `album` resolves to the namespaced
directory and the plain-folder upload writes directly under it. -/
theorem target_path_resolution_witness :
    resolveTarget true (some "album") "cid" "/save" "/print" = ("/print", [])
    ∧ resolveTarget false (some "album") "cid" "/save" "/print"
        = (pathJoin "/save" ("album" ++ "_" ++ "cid"),
            [pathJoin "/save" ("album" ++ "_" ++ "cid")])
    ∧ ((∃ fn, "/save/album_cid/image-d.png" = pathJoin
          (resolveTarget reqFolder.print reqFolder.folder "cid" "/save" "/print").1 fn)
      ∧ (uploadImage reqFolder "cid" "d" "/save" "/print" cfgEmpty
            SessionOutcome.timeout).dirsEnsured
          = (resolveTarget reqFolder.print reqFolder.folder "cid" "/save" "/print").2) :=
  ⟨target_path_resolution.1 (some "album") "cid" "/save" "/print",
   target_path_resolution.2.1 "album" "cid" "/save" "/print" (by decide),
   target_path_resolution.2.2.2.1 reqFolder "cid" "d" "/save" "/print" cfgEmpty
     SessionOutcome.timeout "/save/album_cid/image-d.png" [104, 105] (by decide)⟩

/-- A successful forward carries the conventional public URL. -/
theorem uploadToFtp_success_url (cfg : Config) (outcome : SessionOutcome)
    (buffer : List Nat) (filename : String)
    (h : (uploadToFtp cfg outcome buffer filename).result.success = true) :
    (uploadToFtp cfg outcome buffer filename).result.url
      = some (ftpRemotePaths cfg filename).2 := by
  obtain ⟨hcfg, hout⟩ :=
    (uploadToFtp_success_iff cfg outcome buffer filename).mp h
  subst hout
  simp [uploadToFtp, hcfg]

/-- C5: an inline request whose base64 field is missing or fails the
`data:image/<subtype>;base64,<payload>` pattern is rejected with a
client error (400) and no file is written; any request whose byte
count strictly exceeds the configured threshold is likewise rejected
with 400 and no write (shown for both the inline and the multipart
handler); the validator accepts a size exactly when it is at most the
threshold (so a size exactly equal to it is accepted); and the
threshold is the configured megabyte count times 1,048,576, falling
back to the hard-coded 50 when unset. -/
theorem size_and_format_rejection :
    (∀ (req : InlineRequest) clientId dateString savePath printPath cfg outcome,
      jsStr req.base64 = none →
      (uploadImage req clientId dateString savePath printPath cfg outcome).response.success = false
      ∧ (uploadImage req clientId dateString savePath printPath cfg outcome).response.status = 400
      ∧ (uploadImage req clientId dateString savePath printPath cfg outcome).writes = [])
    ∧ (∀ (req : InlineRequest) clientId dateString savePath printPath cfg outcome s,
      jsStr req.base64 = some s → matchDataImage s = none →
      (uploadImage req clientId dateString savePath printPath cfg outcome).response.success = false
      ∧ (uploadImage req clientId dateString savePath printPath cfg outcome).response.status = 400
      ∧ (uploadImage req clientId dateString savePath printPath cfg outcome).writes = [])
    ∧ (∀ (req : InlineRequest) clientId dateString savePath printPath cfg outcome s ty payload,
      jsStr req.base64 = some s → matchDataImage s = some (ty, payload) →
      maxFileSizeBytes cfg < ((bufferFromBase64 payload).length : Int) →
      (uploadImage req clientId dateString savePath printPath cfg outcome).response.success = false
      ∧ (uploadImage req clientId dateString savePath printPath cfg outcome).response.status = 400
      ∧ (uploadImage req clientId dateString savePath printPath cfg outcome).writes = [])
    ∧ (∀ (form : MultipartForm) clientId dateString savePath printPath cfg outcome verifyOk file,
      form.file = some file →
      maxFileSizeBytes cfg < (file.bytes.length : Int) →
      (uploadFile form clientId dateString savePath printPath cfg outcome verifyOk).response.success = false
      ∧ (uploadFile form clientId dateString savePath printPath cfg outcome verifyOk).response.status = 400
      ∧ (uploadFile form clientId dateString savePath printPath cfg outcome verifyOk).writes = [])
    ∧ (∀ cfg n, (validateFileSize cfg n).valid = true ↔ (n : Int) ≤ maxFileSizeBytes cfg)
    ∧ (∀ cfg : Config, maxFileSizeBytes cfg = jsOrInt cfg.MAX_FILE_SIZE_MB 50 * 1024 * 1024
      ∧ (cfg.MAX_FILE_SIZE_MB = none → maxFileSizeBytes cfg = 50 * 1024 * 1024)) := by
  refine ⟨?_, ?_, ?_, ?_, ?_, ?_⟩
  · intro req clientId dateString savePath printPath cfg outcome h
    simp [uploadImage, h, rejected, errorResponse]
  · intro req clientId dateString savePath printPath cfg outcome s h1 h2
    simp [uploadImage, h1, h2, rejected, errorResponse]
  · intro req clientId dateString savePath printPath cfg outcome s ty payload hb hm hsz
    have hval : (validateFileSize cfg (bufferFromBase64 payload).length).valid = false := by
      simp [validateFileSize, hsz]
    simp [uploadImage, hb, hm, hval, errorResponse]
  · intro form clientId dateString savePath printPath cfg outcome verifyOk file hf hsz
    have hval : (validateFileSize cfg file.bytes.length).valid = false := by
      simp [validateFileSize, hsz]
    simp [uploadFile, hf, hval, rejected, errorResponse]
  · intro cfg n
    unfold validateFileSize
    split_ifs with h <;> simp <;> omega
  · intro cfg
    exact ⟨rfl, fun h => by simp [maxFileSizeBytes, jsOrInt, jsInt, h, MAX_FILE_SIZE_MB]⟩

/-- Witness for C5: a malformed base64 field is rejected with 400 and
no write; with `MAX_FILE_SIZE_MB = -1` the two-byte payload exceeds the
threshold and is rejected with no write; a size exactly equal to the
default threshold is accepted; the unset threshold is 50 MB. -/
theorem size_and_format_rejection_witness :
    ((uploadImage ⟨some "nonsense", none, none, false, false⟩ "cid" "d" "/save" "/print"
        cfgEmpty SessionOutcome.timeout).response.status = 400
      ∧ (uploadImage ⟨some "nonsense", none, none, false, false⟩ "cid" "d" "/save" "/print"
        cfgEmpty SessionOutcome.timeout).writes = [])
    ∧ (uploadImage reqFolder "cid" "d" "/save" "/print" cfgTiny
        SessionOutcome.timeout).writes = []
    ∧ (validateFileSize cfgEmpty 52428800).valid = true
    ∧ maxFileSizeBytes cfgEmpty = 50 * 1024 * 1024 :=
  ⟨⟨(size_and_format_rejection.2.1 ⟨some "nonsense", none, none, false, false⟩
      "cid" "d" "/save" "/print" cfgEmpty SessionOutcome.timeout "nonsense"
      (by decide) (by decide)).2.1,
    (size_and_format_rejection.2.1 ⟨some "nonsense", none, none, false, false⟩
      "cid" "d" "/save" "/print" cfgEmpty SessionOutcome.timeout "nonsense"
      (by decide) (by decide)).2.2⟩,
   (size_and_format_rejection.2.2.1 reqFolder "cid" "d" "/save" "/print" cfgTiny
      SessionOutcome.timeout "data:image/png;base64,aGk" "png" "aGk"
      (by decide) (by decide) (by decide)).2.2,
   (size_and_format_rejection.2.2.2.2.1 cfgEmpty 52428800).mpr (by decide),
   (size_and_format_rejection.2.2.2.2.2 cfgEmpty).2 rfl⟩

/-- A forward fails whenever the destination configuration is
incomplete or the winning session event is not a clean push. -/
theorem uploadToFtp_fails_of (cfg : Config) (outcome : SessionOutcome)
    (hfail : ftpConfigComplete cfg = false ∨ outcome ≠ SessionOutcome.ready none)
    (buffer : List Nat) (filename : String) :
    (uploadToFtp cfg outcome buffer filename).result.success = false := by
  cases hC : (uploadToFtp cfg outcome buffer filename).result.success
  · rfl
  · obtain ⟨h1, h2⟩ := (uploadToFtp_success_iff cfg outcome buffer filename).mp hC
    rcases hfail with hf | hf
    · rw [h1] at hf; cases hf
    · exact absurd h2 hf

/-- C2: when an inline or multipart upload with the `ftp` flag set has
persisted its file locally but the forward fails (incomplete
destination configuration or a session outcome other than a clean
push), the response still reports success (HTTP 200) with the local
path populated and a message describing the FTP failure; a remote-only
upload whose forward fails (after a forward was attempted) reports
overall failure with HTTP 500. -/
theorem partial_forward_failure_semantics :
    (∀ (req : InlineRequest) clientId dateString savePath printPath cfg outcome,
      req.ftp = true →
      (ftpConfigComplete cfg = false ∨ outcome ≠ SessionOutcome.ready none) →
      (uploadImage req clientId dateString savePath printPath cfg outcome).writes ≠ [] →
      (uploadImage req clientId dateString savePath printPath cfg outcome).response.success = true
      ∧ (uploadImage req clientId dateString savePath printPath cfg outcome).response.status = 200
      ∧ (∃ p b, (uploadImage req clientId dateString savePath printPath cfg outcome).writes = [(p, b)]
          ∧ (uploadImage req clientId dateString savePath printPath cfg outcome).response.local_path = some p)
      ∧ (∃ m, (uploadImage req clientId dateString savePath printPath cfg outcome).response.message
          = "Image uploaded locally but FTP upload failed: " ++ m))
    ∧ (∀ (form : MultipartForm) clientId dateString savePath printPath cfg outcome verifyOk,
      form.ftp = true →
      (ftpConfigComplete cfg = false ∨ outcome ≠ SessionOutcome.ready none) →
      verifyOk = true →
      (uploadFile form clientId dateString savePath printPath cfg outcome verifyOk).writes ≠ [] →
      (uploadFile form clientId dateString savePath printPath cfg outcome verifyOk).response.success = true
      ∧ (uploadFile form clientId dateString savePath printPath cfg outcome verifyOk).response.status = 200
      ∧ (∃ p b, (uploadFile form clientId dateString savePath printPath cfg outcome verifyOk).writes = [(p, b)]
          ∧ (uploadFile form clientId dateString savePath printPath cfg outcome verifyOk).response.local_path = some p)
      ∧ (∃ m, (uploadFile form clientId dateString savePath printPath cfg outcome verifyOk).response.message
          = "File uploaded locally but FTP upload failed: " ++ m))
    ∧ (∀ (req : FtpOnlyRequest) dateString cfg outcome,
      (ftpConfigComplete cfg = false ∨ outcome ≠ SessionOutcome.ready none) →
      (uploadImageToFtp req dateString cfg outcome).forwards ≠ [] →
      (uploadImageToFtp req dateString cfg outcome).response.success = false
      ∧ (uploadImageToFtp req dateString cfg outcome).response.status = 500) := by
  refine ⟨?_, ?_, ?_⟩
  · intro req clientId dateString savePath printPath cfg outcome hftp hfail hw
    cases hb : jsStr req.base64 with
    | none => simp [uploadImage, hb, rejected] at hw
    | some b64 =>
      cases hm : matchDataImage b64 with
      | none => simp [uploadImage, hb, hm, rejected] at hw
      | some pr =>
        obtain ⟨ty, data⟩ := pr
        simp only [uploadImage, hb, hm] at hw ⊢
        split_ifs at hw ⊢ with h1 h2 <;>
          first
            | (simp at hw; done)
            | (simp [uploadToFtp_fails_of cfg outcome hfail] at h2; done)
            | (exact ⟨rfl, rfl, ⟨_, _, rfl, rfl⟩, ⟨_, rfl⟩⟩)
  · intro form clientId dateString savePath printPath cfg outcome verifyOk hftp hfail hv hw
    cases hf : form.file with
    | none => simp [uploadFile, hf, rejected] at hw
    | some file =>
      simp only [uploadFile, hf] at hw ⊢
      split_ifs at hw ⊢ with h1 h2 h3 <;>
        first
          | (simp [rejected] at hw; done)
          | (simp [hv] at h2; done)
          | (simp [uploadToFtp_fails_of cfg outcome hfail] at h3; done)
          | (exact ⟨rfl, rfl, ⟨_, _, rfl, rfl⟩, ⟨_, rfl⟩⟩)
  · intro req dateString cfg outcome hfail hfwd
    cases hb : jsStr req.base64 with
    | none => simp [uploadImageToFtp, hb, rejected] at hfwd
    | some b64 =>
      cases hm : matchDataImage b64 with
      | none => simp [uploadImageToFtp, hb, hm, rejected] at hfwd
      | some pr =>
        obtain ⟨ty, data⟩ := pr
        simp only [uploadImageToFtp, hb, hm] at hfwd ⊢
        split_ifs at hfwd ⊢ with h1 h2 <;>
          first
            | (simp [rejected] at hfwd; done)
            | (simp [uploadToFtp_fails_of cfg outcome hfail] at h2; done)
            | (exact ⟨rfl, rfl⟩)

/-- Witness for C2: with no FTP destination configured, the inline
upload with `ftp = true` still succeeds locally, and the remote-only
upload fails with status 500. -/
theorem partial_forward_failure_semantics_witness :
    ((uploadImage reqFtpFlag "cid" "d" "/save" "/print" cfgEmpty
        SessionOutcome.timeout).response.success = true
      ∧ (uploadImage reqFtpFlag "cid" "d" "/save" "/print" cfgEmpty
        SessionOutcome.timeout).response.status = 200
      ∧ (∃ p b, (uploadImage reqFtpFlag "cid" "d" "/save" "/print" cfgEmpty
            SessionOutcome.timeout).writes = [(p, b)]
          ∧ (uploadImage reqFtpFlag "cid" "d" "/save" "/print" cfgEmpty
            SessionOutcome.timeout).response.local_path = some p)
      ∧ (∃ m, (uploadImage reqFtpFlag "cid" "d" "/save" "/print" cfgEmpty
            SessionOutcome.timeout).response.message
          = "Image uploaded locally but FTP upload failed: " ++ m))
    ∧ ((uploadImageToFtp reqFtpOnly "d" cfgEmpty SessionOutcome.timeout).response.success = false
      ∧ (uploadImageToFtp reqFtpOnly "d" cfgEmpty SessionOutcome.timeout).response.status = 500) :=
  ⟨partial_forward_failure_semantics.1 reqFtpFlag "cid" "d" "/save" "/print"
      cfgEmpty SessionOutcome.timeout rfl (Or.inl (by decide)) (by decide),
   partial_forward_failure_semantics.2.2 reqFtpOnly "d" cfgEmpty
      SessionOutcome.timeout (Or.inl (by decide)) (by decide)⟩

/-- C8 counterexample: the inline request with base64 field
`data:image/png;base64,a` matches the pattern (payload `a`), but a
single base64 digit decodes to zero bytes, so persistence is attempted
— a file is written — with an empty byte buffer, refuting the claim
that the buffer obtained from the request is non-empty whenever
persistence is attempted. -/
theorem nonempty_buffer_counterexample :
    (uploadImage reqEmptyBuf "cid" "d" "/save" "/print" cfgEmpty
        SessionOutcome.timeout).writes
      = [("/save/image-d.png", ([] : List Nat))] := by decide

/-- C8 amended: whenever persistence (or, for remote-only, forwarding)
is attempted, the request supplied a pattern-matching base64 field
whose payload string is non-empty (inline and remote-only) or a
present file part (multipart), and the bytes persisted/forwarded are
exactly that payload's decoding (resp. the file's bytes) — but the
decoded byte buffer itself may be empty. -/
theorem nonempty_payload_invariant :
    (∀ (req : InlineRequest) clientId dateString savePath printPath cfg outcome,
      (uploadImage req clientId dateString savePath printPath cfg outcome).writes ≠ [] →
      ∃ s ty payload, jsStr req.base64 = some s
        ∧ matchDataImage s = some (ty, payload) ∧ payload ≠ ""
        ∧ ∃ fp, (uploadImage req clientId dateString savePath printPath cfg outcome).writes
            = [(fp, bufferFromBase64 payload)])
    ∧ (∀ (form : MultipartForm) clientId dateString savePath printPath cfg outcome verifyOk,
      (uploadFile form clientId dateString savePath printPath cfg outcome verifyOk).writes ≠ [] →
      ∃ file, form.file = some file
        ∧ ∃ fp, (uploadFile form clientId dateString savePath printPath cfg outcome verifyOk).writes
            = [(fp, file.bytes)])
    ∧ (∀ (req : FtpOnlyRequest) dateString cfg outcome,
      (uploadImageToFtp req dateString cfg outcome).forwards ≠ [] →
      ∃ s ty payload, jsStr req.base64 = some s
        ∧ matchDataImage s = some (ty, payload) ∧ payload ≠ ""
        ∧ ∃ fn, (uploadImageToFtp req dateString cfg outcome).forwards
            = [(bufferFromBase64 payload, fn)]) := by
  refine ⟨?_, ?_, ?_⟩
  · intro req clientId dateString savePath printPath cfg outcome hw
    cases hb : jsStr req.base64 with
    | none => simp [uploadImage, hb, rejected] at hw
    | some b64 =>
      cases hm : matchDataImage b64 with
      | none => simp [uploadImage, hb, hm, rejected] at hw
      | some pr =>
        obtain ⟨ty, data⟩ := pr
        refine ⟨b64, ty, data, rfl, hm, (matchDataImage_groups_ne hm).2, ?_⟩
        simp only [uploadImage, hb, hm] at hw ⊢
        split_ifs at hw ⊢ <;>
          first
            | (simp at hw; done)
            | (exact ⟨_, rfl⟩)
  · intro form clientId dateString savePath printPath cfg outcome verifyOk hw
    cases hf : form.file with
    | none => simp [uploadFile, hf, rejected] at hw
    | some file =>
      refine ⟨file, rfl, ?_⟩
      simp only [uploadFile, hf] at hw ⊢
      split_ifs at hw ⊢ <;>
        first
          | (simp [rejected] at hw; done)
          | (exact ⟨_, rfl⟩)
  · intro req dateString cfg outcome hfwd
    cases hb : jsStr req.base64 with
    | none => simp [uploadImageToFtp, hb, rejected] at hfwd
    | some b64 =>
      cases hm : matchDataImage b64 with
      | none => simp [uploadImageToFtp, hb, hm, rejected] at hfwd
      | some pr =>
        obtain ⟨ty, data⟩ := pr
        refine ⟨b64, ty, data, rfl, hm, (matchDataImage_groups_ne hm).2, ?_⟩
        simp only [uploadImageToFtp, hb, hm] at hfwd ⊢
        split_ifs at hfwd ⊢ <;>
          first
            | (simp [rejected] at hfwd; done)
            | (exact ⟨_, rfl⟩)

/-- Witness for the amended C8: the plain inline upload writes a file,
so the payload `aGk` it supplied is non-empty and is what was
decoded. -/
theorem nonempty_payload_invariant_witness :
    (uploadImage reqPlain "cid" "d" "/save" "/print" cfgEmpty
        SessionOutcome.timeout).writes ≠ []
    ∧ ∃ s ty payload, jsStr reqPlain.base64 = some s
        ∧ matchDataImage s = some (ty, payload) ∧ payload ≠ ""
        ∧ ∃ fp, (uploadImage reqPlain "cid" "d" "/save" "/print" cfgEmpty
              SessionOutcome.timeout).writes = [(fp, bufferFromBase64 payload)] :=
  ⟨by decide,
   nonempty_payload_invariant.1 reqPlain "cid" "d" "/save" "/print" cfgEmpty
     SessionOutcome.timeout (by decide)⟩

/-- C9 counterexample: an `/upload_image` request with `ftp = true`
whose forward succeeds yields a success response that carries the
public URL but no `local_path` field, refuting the claim that every
successful response contains the local path. -/
theorem success_local_path_counterexample :
    (uploadImage reqFtpFlag "cid" "d" "/save" "/print" cfgFull
        (SessionOutcome.ready none)).response.success = true
    ∧ (uploadImage reqFtpFlag "cid" "d" "/save" "/print" cfgFull
        (SessionOutcome.ready none)).response.local_path = none
    ∧ (uploadImage reqFtpFlag "cid" "d" "/save" "/print" cfgFull
        (SessionOutcome.ready none)).response.public_url
      = some "https://ftp.example.com/image-d.png" := by decide

/-- C9 amended: every successful `/upload_image` response carries the
local path of the persisted file, except when FTP forwarding was
requested and succeeded, in which case the response carries the remote
URL and omits the local path (the file was still persisted locally). -/
theorem success_response_path_or_url
    (req : InlineRequest) (clientId dateString savePath printPath : String)
    (cfg : Config) (outcome : SessionOutcome)
    (hs : (uploadImage req clientId dateString savePath printPath cfg outcome).response.success = true) :
    (∃ p b, (uploadImage req clientId dateString savePath printPath cfg outcome).writes = [(p, b)]
      ∧ (uploadImage req clientId dateString savePath printPath cfg outcome).response.local_path = some p)
    ∨ (req.ftp = true
      ∧ (uploadImage req clientId dateString savePath printPath cfg outcome).response.public_url.isSome = true
      ∧ (uploadImage req clientId dateString savePath printPath cfg outcome).response.local_path = none
      ∧ (uploadImage req clientId dateString savePath printPath cfg outcome).writes ≠ []) := by
  cases hb : jsStr req.base64 with
  | none => simp [uploadImage, hb, rejected, errorResponse] at hs
  | some b64 =>
    cases hm : matchDataImage b64 with
    | none => simp [uploadImage, hb, hm, rejected, errorResponse] at hs
    | some pr =>
      obtain ⟨ty, data⟩ := pr
      simp only [uploadImage, hb, hm] at hs ⊢
      split_ifs at hs ⊢ with h1 h2 h3 <;>
        first
          | (simp [errorResponse] at hs; done)
          | (exact Or.inl ⟨_, _, rfl, rfl⟩)
          | (exact Or.inr ⟨h2, by rw [uploadToFtp_success_url _ _ _ _ h3]; rfl,
              rfl, by simp⟩)

/-- Witness for the amended C9: the plain (no-FTP) inline upload
succeeds and its response carries the written path. -/
theorem success_response_path_or_url_witness :
    (uploadImage reqPlain "cid" "d" "/save" "/print" cfgEmpty
        SessionOutcome.timeout).response.success = true
    ∧ ((∃ p b, (uploadImage reqPlain "cid" "d" "/save" "/print" cfgEmpty
            SessionOutcome.timeout).writes = [(p, b)]
        ∧ (uploadImage reqPlain "cid" "d" "/save" "/print" cfgEmpty
            SessionOutcome.timeout).response.local_path = some p)
      ∨ (reqPlain.ftp = true
        ∧ (uploadImage reqPlain "cid" "d" "/save" "/print" cfgEmpty
            SessionOutcome.timeout).response.public_url.isSome = true
        ∧ (uploadImage reqPlain "cid" "d" "/save" "/print" cfgEmpty
            SessionOutcome.timeout).response.local_path = none
        ∧ (uploadImage reqPlain "cid" "d" "/save" "/print" cfgEmpty
            SessionOutcome.timeout).writes ≠ [])) :=
  ⟨by decide,
   success_response_path_or_url reqPlain "cid" "d" "/save" "/print" cfgEmpty
     SessionOutcome.timeout (by decide)⟩

end ImageReceiver
